import Mathlib

/-!
Verification of the SANDAG auto-demand import pipeline
(`import_auto_demand.py`) against its natural-language specification.

The file shallowly embeds the matrix-aggregation logic of
`ImportMatrices`:
  * demand matrices are total functions `Nat → Nat → ℚ` (origin zone,
    destination zone); numpy elementwise arithmetic becomes pointwise
    arithmetic on these functions,
  * the in-memory matrix cache of `setup` / `set_data` becomes a map
    `String → Option Mat`,
  * the Emme matrix store becomes a map from (typed or string) matrix
    names to matrices,
  * fallible steps (numpy `reshape` of a flat CSV column) return
    `Except`/are paired with an `Option` error component.

Definitions are translated from the Python source; where the behaviour
of a collaborator outside the repository snapshot is needed (the Emme
matrix-calculator semantics used by `add_aggregate_demand`) the
definition is modelled from the spec and marked as such.
-/

namespace RSM

/-- A demand matrix: a dense 2-D array of rationals indexed by origin and
destination zone index.  numpy float arrays are modelled with exact
rational arithmetic. -/
abbrev Mat : Type := Nat → Nat → ℚ

/-- Elementwise `matrix * scalar` (numpy broadcasting, scalar on the
right, as in `demand * share` in the source). -/
def scaleR (m : Mat) (s : ℚ) : Mat := fun i j => m i j * s

/-- Elementwise `scalar * matrix` (numpy broadcasting, scalar on the
left, as in `(1.0/3.0)*mf..` in the matrix-calculator expressions). -/
def smulL (s : ℚ) (m : Mat) : Mat := fun i j => s * m i j

/-- Elementwise `matrix / scalar` (numpy broadcasting), as in
`cvm_array/scale_factor` in the source. -/
def divS (m : Mat) (s : ℚ) : Mat := fun i j => m i j / s

/-- Constant matrix, used to build concrete test inputs. -/
def konst (q : ℚ) : Mat := fun _ _ => q

/-- Pointwise update of a finite-map-as-function at one key
(assignment `d[k] = v` on a Python dict / matrix store). -/
def updF {α β : Type} [DecidableEq α] (f : α → β) (a : α) (b : β) : α → β :=
  fun x => if x = a then b else f x

theorem updF_same {α β : Type} [DecidableEq α] (f : α → β) (a : α) (b : β) :
    updF f a b a = b := by simp [updF]

theorem updF_other {α β : Type} [DecidableEq α] (f : α → β) (a x : α) (b : β)
    (h : x ≠ a) : updF f a b x = f x := by simp [updF, h]

/-! ### The scoped accumulator cache (`setup` / `set_data`)

`ImportMatrices.setup` holds a dict `self._matrix_cache`; `set_data`
adds a contribution for a named destination matrix, summing with any
contribution already cached; on scope exit (normal or error) every
cached entry is written to the Emme bank. -/

/-- The in-memory matrix cache `self._matrix_cache`: absent keys are
`none`. -/
abbrev Cache : Type := String → Option Mat

/-- The persisted matrix store (the Emme bank seen through
`matrix.set_numpy_data` / `get_numpy_data`), keyed by matrix name. -/
abbrev Store : Type := String → Mat

/-- The empty cache at entry to `setup`. -/
def emptyCache : Cache := fun _ => none

/-- Source method `ImportMatrices.set_data` (lines 193-196):
if the name is already cached the new value is added to the cached one,
and the (summed) value is stored back under the name. -/
def set_data (cache : Cache) (name : String) (value : Mat) : Cache :=
  match cache name with
  | some old => updF cache name (some (value + old))
  | none => updF cache name (some value)

/-- The flush in the `finally` of `setup` (source lines 188-191): every
cached entry overwrites the correspondingly named matrix of the
persisted store; uncached names are untouched. -/
def flushCache (cache : Cache) (store : Store) : Store :=
  fun n => match cache n with
  | some v => v
  | none => store n

/-- One event inside the `with self.setup()` block: either a
`set_data` contribution, or an exception raised by the body. -/
inductive SetupOp : Type
  | set (name : String) (value : Mat)
  | failure (msg : String)

/-- Whether an event is an exception. -/
def SetupOp.isFailure : SetupOp → Bool
  | .set _ _ => false
  | .failure _ => true

/-- Run the body of the `with self.setup()` block over the cache:
`set_data` events accumulate; the first exception stops the body and is
reported. -/
def runOps : List SetupOp → Cache → Cache × Option String
  | [], c => (c, none)
  | .set n v :: rest, c => runOps rest (set_data c n v)
  | .failure m :: _, c => (c, some m)

/-- Source context manager `ImportMatrices.setup` (lines 181-191): run the body from an
empty cache; whether or not the body raised, flush the whole cache to
the persisted store (`finally` clause), and propagate the body's
exception, if any, to the caller. -/
def setupScope (ops : List SetupOp) (store : Store) : Store × Option String :=
  let r := runOps ops emptyCache
  (flushCache r.1 store, r.2)

/-! ### High value-of-time taxi / TNC / AV block of `import_traffic_trips`

Source lines 203-229 set up the mode shares, lines 306-364 compute, for
each time period and each of the three high-VOT destination templates,
the taxi demand (six sources, each multiplied by the per-mode share) and
the AV/TNC fleet demand (occupancy remap switched on the global AV
adoption share), and `set_data` the total to the formatted matrix name. -/

/-- Python `tmplt % period` for the single `%s` placeholder: substitute
the period string for each occurrence of `%s` in the template. -/
def substPct : List Char → String → List Char
  | [], _ => []
  | '%' :: 's' :: rest, p => p.data ++ substPct rest p
  | c :: rest, p => c :: substPct rest p

/-- Format a matrix-name template with the period tag
(`matrix_name_tmplt % period[1:]` in the source). -/
def fmtName (tmplt period : String) : String := ⟨substPct tmplt.data period⟩

/-- Scalar properties read from `sandag_abm.properties` used by the
high-VOT taxi/TNC block (source lines 203-215). -/
structure TaxiProps : Type where
  taxi_da_share : ℚ
  taxi_s2_share : ℚ
  taxi_s3_share : ℚ
  taxi_pce : ℚ
  av_share : ℚ

/-- The `mode_shares` table (source lines 219-229): each high-VOT
destination template paired with its taxi share per vehicle. -/
def mode_shares (pr : TaxiProps) : List (String × ℚ) :=
  [("mf%s_SOV_TR_H", pr.taxi_da_share / pr.taxi_pce),
   ("mf%s_HOV2_H", pr.taxi_s2_share / pr.taxi_pce),
   ("mf%s_HOV3_H", pr.taxi_s3_share / pr.taxi_pce)]

/-- The OMX matrices looked up by the high-VOT block for one time
period: the six taxi sources (with the flag telling whether the optional
CBX airport file exists), the empty-AV matrix, and the four TNC
occupancy matrices. -/
structure TaxiTNCInputs : Type where
  resident_taxi : Mat
  visitor_taxi : Mat
  cross_border_taxi : Mat
  airport_taxi_SAN : Mat
  airport_taxi_CBX : Mat
  internal_external_taxi : Mat
  cbx_exists : Bool
  empty_av : Mat
  tnc_0 : Mat
  tnc_1 : Mat
  tnc_2 : Mat
  tnc_3 : Mat

/-- Taxi part of the high-VOT total (source lines 309-323): each source
matrix is multiplied by the mode's taxi share; the CBX airport term is
added only when the CBX file exists. -/
def taxi_part (d : TaxiTNCInputs) (share : ℚ) : Mat :=
  scaleR d.resident_taxi share + scaleR d.visitor_taxi share
    + scaleR d.cross_border_taxi share
    + (scaleR d.airport_taxi_SAN share
        + (if d.cbx_exists then scaleR d.airport_taxi_CBX share else 0))
    + scaleR d.internal_external_taxi share

/-- AV / TNC fleet part of the high-VOT total (source lines 336-349):
dispatch on the destination template's mode slice `tmplt[5:-2]` and on
whether the AV adoption share is positive. -/
def av_demand (av_share : ℚ) (tmplt : String) (d : TaxiTNCInputs) : Mat :=
  if av_share > 0 then
    if (tmplt.drop 5).dropRight 2 = "SOV_TR" then d.empty_av + d.tnc_0 + d.tnc_1
    else if (tmplt.drop 5).dropRight 2 = "HOV2" then d.tnc_2
    else d.tnc_3
  else
    if (tmplt.drop 5).dropRight 2 = "SOV_TR" then d.tnc_0
    else if (tmplt.drop 5).dropRight 2 = "HOV2" then d.tnc_1
    else d.tnc_2 + d.tnc_3

/-- The `total_ct_ramp_trips` of the high-VOT block (source lines
351-353): taxi demand plus AV/TNC fleet demand. -/
def high_vot_total (av_share : ℚ) (d : TaxiTNCInputs) (tmplt : String)
    (share : ℚ) : Mat :=
  taxi_part d share + av_demand av_share tmplt d

/-- The loop `for matrix_name_tmplt, share in mode_shares` for one time
period (source lines 306-364): `set_data` the high-VOT total to the
formatted destination name for each of the three templates. -/
def high_vot_pass (pr : TaxiProps) (d : TaxiTNCInputs) (period : String)
    (cache : Cache) : Cache :=
  (mode_shares pr).foldl
    (fun c ts => set_data c (fmtName ts.1 period) (high_vot_total pr.av_share d ts.1 ts.2))
    cache

/-! ### Commercial vehicle demand (`import_commercial_vehicle_demand`)

Source lines 367-456: a mapping of 20 keys `CVM_<period>:<class>` (5
periods x 4 classes) records, per key, the origin/destination matrix
names, a PCE factor, a per-period per-class scale factor and a class
share.  The raw trip table (one flat CSV column per key, reshaped to a
4996 x 4996 square) is scaled, the complement of the class share is
added to the class's own array, the `INT` (light-truck) array
additionally receives the share-weighted `LNT`/`MNT`/`HNT` columns, and
finally each array is multiplied by its PCE factor and written to the
bank. -/

/-- Commercial-vehicle properties read from `sandag_abm.properties`
(source lines 369-375); the per-class scale factors are indexed by the
position of the period in the period list. -/
structure CVMProps : Type where
  scale_factor : ℚ
  scale_light : Nat → ℚ
  scale_medium : Nat → ℚ
  scale_heavy : Nat → ℚ
  share_light : ℚ
  share_medium : ℚ
  share_heavy : ℚ

/-- One value of the `mapping` dict (source lines 386-417). -/
structure CVMEntry : Type where
  orig : String
  dest : String
  pce : ℚ
  scale : ℚ
  share : ℚ
  period : String

/-- The `mapping` entry for a given period (with its index in the
period list) and class tag (source lines 385-417). -/
def cvm_entry (pr : CVMProps) (index : Nat) (period cls : String) : CVMEntry :=
  if cls = "LNT" then
    ⟨period ++ "_SOV_TR_H", period ++ "_SOV_TR_H", 1.0, pr.scale_light index,
      pr.share_light, period⟩
  else if cls = "INT" then
    ⟨period ++ "_TRK_L_VEH", period ++ "_TRK_L", 1.3, pr.scale_medium index,
      pr.share_medium, period⟩
  else if cls = "MNT" then
    ⟨period ++ "_TRK_M_VEH", period ++ "_TRK_M", 1.5, pr.scale_medium index,
      pr.share_medium, period⟩
  else
    ⟨period ++ "_TRK_H_VEH", period ++ "_TRK_H", 2.5, pr.scale_heavy index,
      pr.share_heavy, period⟩

/-- The five time periods with their enumeration indices (source line
381 and the `enumerate` of line 385). -/
def cvm_periods : List (Nat × String) :=
  [(0, "EA"), (1, "AM"), (2, "MD"), (3, "PM"), (4, "EV")]

/-- The four commercial-vehicle class tags. -/
def cvm_classes : List String := ["LNT", "INT", "MNT", "HNT"]

/-- The key string `CVM_<period>:<class>` of the `mapping` dict and of
the columns of the raw trip table. -/
def cvm_key (period cls : String) : String := "CVM_" ++ period ++ ":" ++ cls

/-- All (index, period, class) triples of the `mapping` dict. -/
def cvm_keys : List (Nat × String × String) :=
  cvm_periods.flatMap (fun ip => cvm_classes.map (fun cls => (ip.1, ip.2, cls)))

/-- Key string of a `mapping` triple. -/
def cvm_key_of (k : Nat × String × String) : String := cvm_key k.2.1 k.2.2

/-- The scaled raw table for one key (source lines 426-430): the
reshaped column, divided by the global scale factor, then multiplied by
the per-period per-class scale factor. -/
def cvm_scaled (pr : CVMProps) (tm : String → Mat) (index : Nat)
    (period cls : String) : Mat :=
  scaleR (divS (tm (cvm_key period cls)) pr.scale_factor)
    ((cvm_entry pr index period cls).scale)

/-- The starting arrays (source lines 418-420): each key's array is the
persisted matrix named by the key's `orig` field. -/
def cvm_start (pr : CVMProps) (store : Store) : String → Mat :=
  cvm_keys.foldl
    (fun f k => updF f (cvm_key_of k) (store ((cvm_entry pr k.1 k.2.1 k.2.2).orig)))
    (fun _ => konst 0)

/-- The body of the first processing loop for one key (source lines
426-433): add the scaled raw table times the complement of the class
share to the key's array. -/
def cvm_inc (pr : CVMProps) (tm : String → Mat) (k : Nat × String × String)
    (b : Mat) : Mat :=
  b + scaleR (cvm_scaled pr tm k.1 k.2.1 k.2.2)
        (1 - (cvm_entry pr k.1 k.2.1 k.2.2).share)

/-- The first processing loop over all `mapping` keys (source lines
425-433). -/
def cvm_loop1 (pr : CVMProps) (tm : String → Mat) (arrays : String → Mat) :
    String → Mat :=
  cvm_keys.foldl (fun f k => updF f (cvm_key_of k) (cvm_inc pr tm k (f (cvm_key_of k))))
    arrays

/-- The letters iterated by the redistribution loop (source line 438,
`cvm_vehs`). -/
def cvm_vehs : List String := ["L", "M", "H"]

/-- The inner redistribution loop for one `INT` key (source lines
440-447): for each letter, when the corresponding class share is
nonzero, add the scaled raw table of that class weighted by the class's
own share. -/
def cvm_loop2_inner (pr : CVMProps) (tm : String → Mat) (index : Nat)
    (period : String) (arr : Mat) : Mat :=
  cvm_vehs.foldl
    (fun a veh =>
      if (cvm_entry pr index period (veh ++ "NT")).share ≠ 0 then
        a + scaleR (cvm_scaled pr tm index period (veh ++ "NT"))
              ((cvm_entry pr index period (veh ++ "NT")).share)
      else a)
    arr

/-- The body of the redistribution loop for one key (source lines
436-447): only keys equal to their own period's `INT` key receive the
redistributed columns; other keys are untouched. -/
def cvm_redist (pr : CVMProps) (tm : String → Mat) (k : Nat × String × String)
    (b : Mat) : Mat :=
  if cvm_key_of k = cvm_key k.2.1 "INT" then cvm_loop2_inner pr tm k.1 k.2.1 b
  else b

/-- The redistribution loop over all `mapping` keys (source lines
436-447). -/
def cvm_loop2 (pr : CVMProps) (tm : String → Mat) (arrays : String → Mat) :
    String → Mat :=
  cvm_keys.foldl
    (fun f k => updF f (cvm_key_of k) (cvm_redist pr tm k (f (cvm_key_of k))))
    arrays

/-- The save loop (source lines 448-456): each key's array times its
PCE factor is written to the matrix named by its `dest` field; when a
destination matrix object has already been written in this phase, the
already-persisted contents are added back in first. -/
def cvm_save (pr : CVMProps) (arrays : String → Mat) (store : Store) : Store :=
  (cvm_keys.foldl
    (fun st k =>
      let e := cvm_entry pr k.1 k.2.1 k.2.2
      let a0 := scaleR (arrays (cvm_key_of k)) e.pce
      let a1 := if e.dest ∈ st.2 then a0 + st.1 e.dest else a0
      (updF st.1 e.dest a1, e.dest :: st.2))
    (store, ([] : List String))).1

/-- Reshape of a flat CSV column to the hard-coded 4996 x 4996 zone
square (source lines 426 and 444): numpy raises when the column length
does not equal the number of cells of the square; the error is modelled
by the spec's name for it. -/
def reshape4996 (col : List ℚ) : Except String Mat :=
  if col.length = 4996 * 4996 then
    Except.ok (fun i j => col.getD (i * 4996 + j) 0)
  else Except.error "ShapeMismatchError"

/-- Reshape every listed column of the raw table, stopping at the first
failure. -/
def reshapeCols (table : String → List ℚ) : List String → Except String (String → Mat)
  | [] => Except.ok (fun _ => konst 0)
  | k :: rest =>
    match reshape4996 (table k) with
    | Except.error e => Except.error e
    | Except.ok m =>
      match reshapeCols table rest with
      | Except.error e => Except.error e
      | Except.ok f => Except.ok (updF f k m)

/-- The key names of all raw-table columns read by the import. -/
def cvm_key_names : List String := cvm_keys.map cvm_key_of

/-- Source method `ImportMatrices.import_commercial_vehicle_demand`
(lines 367-456): reshape the raw columns (any shape mismatch aborts
the import with the error and leaves the persisted store untouched, since
the bank is only written in the final save loop), then run the two
processing loops on the starting arrays and save the result. -/
def import_commercial_vehicle_demand (pr : CVMProps) (table : String → List ℚ)
    (store : Store) : Store × Option String :=
  match reshapeCols table cvm_key_names with
  | Except.error e => (store, some e)
  | Except.ok tm =>
    (cvm_save pr (cvm_loop2 pr tm (cvm_loop1 pr tm (cvm_start pr store))) store, none)

/-! ### Aggregate demand (`add_aggregate_demand`)

Source lines 471-517: two passes of matrix-calculator additions over
the persisted matrices.  The matrix names are built from the patterns
`mf<period>_<assign mode>_<vot>`, `mf<period>_<mode group>_EIWORK`,
`mf<period>_<mode group>_EINONWORK` and `mf<period>_<mode>_EETRIPS`;
they are embedded as a typed key so that distinctness of differently
shaped names is by construction.

The matrix calculator itself (`dem_utils.MatrixCalculator`, outside the
repository snapshot) is modelled from the spec: `add(result, expr)`
evaluates the expression over the current store and assigns it to the
result matrix; with a zone constraint the assignment only happens at
cells whose origin and destination both lie in the constrained ranges,
all other cells keeping their previous value. -/

/-- Time period tag of a matrix name. -/
inductive PeriodTag : Type
  | EA | AM | MD | PM | EV
deriving DecidableEq

/-- Value-of-time tag of a total-demand matrix name. -/
inductive VotTag : Type
  | L | M | H
deriving DecidableEq

/-- Assignment mode of a total-demand matrix name
(`SOV_TR`, `SOV_NT`, `HOV2`, `HOV3`). -/
inductive AssignMode : Type
  | SOV_TR | SOV_NT | HOV2 | HOV3
deriving DecidableEq

/-- Mode group of the external-internal matrices (source line 479). -/
inductive EIGroup : Type
  | SOVGP | SOVTOLL | HOV2HOV | HOV2TOLL | HOV3HOV | HOV3TOLL
deriving DecidableEq

/-- Mode of the external-external matrices (source line 502). -/
inductive EEMode : Type
  | SOV | HOV2 | HOV3
deriving DecidableEq

/-- Typed matrix name for the aggregate-demand pass:
`tot p am v` stands for `mf<p>_<am>_<v>`,
`eiwork p g` for `mf<p>_<g>_EIWORK`,
`einonwork p g` for `mf<p>_<g>_EINONWORK`, and
`eetrips p m` for `mf<p>_<m>_EETRIPS`. -/
inductive MatKey : Type
  | tot (p : PeriodTag) (am : AssignMode) (v : VotTag)
  | eiwork (p : PeriodTag) (g : EIGroup)
  | einonwork (p : PeriodTag) (g : EIGroup)
  | eetrips (p : PeriodTag) (m : EEMode)
deriving DecidableEq

/-- The persisted matrices touched by `add_aggregate_demand`. -/
abbrev AggStore : Type := MatKey → Mat

/-- The `modes_assign` dict (source lines 480-485). -/
def modes_assign (g : EIGroup) : AssignMode :=
  match g with
  | .SOVGP => .SOV_TR
  | .SOVTOLL => .SOV_TR
  | .HOV2HOV => .HOV2
  | .HOV2TOLL => .HOV2
  | .HOV3HOV => .HOV3
  | .HOV3TOLL => .HOV3

/-- Loop lists of the two passes (source lines 474-475, 479, 502). -/
def periodTags : List PeriodTag := [.EA, .AM, .MD, .PM, .EV]

/-- Value-of-time loop list (source line 475). -/
def votTags : List VotTag := [.L, .M, .H]

/-- Mode-group loop list of the external-internal pass (source line 479). -/
def eiGroups : List EIGroup := [.SOVGP, .SOVTOLL, .HOV2HOV, .HOV2TOLL, .HOV3HOV, .HOV3TOLL]

/-- Mode loop list of the external-external pass (source line 502). -/
def eeModes : List EEMode := [.SOV, .HOV2, .HOV3]

/-- The (period, mode group, vot) iteration of the external-internal
pass, in source loop order (source lines 486-488). -/
def ie_items : List (PeriodTag × EIGroup × VotTag) :=
  periodTags.flatMap (fun p => eiGroups.flatMap (fun g => votTags.map (fun v => (p, g, v))))

/-- Destination key written by one external-internal addition. -/
def ie_key (t : PeriodTag × EIGroup × VotTag) : MatKey :=
  MatKey.tot t.1 (modes_assign t.2.1) t.2.2

/-- One external-internal addition (source lines 492-495): assign to
the destination the destination plus one third of the group's EIWORK
matrix plus one third of its EINONWORK matrix, evaluated over the
current store. -/
def ie_step (s : AggStore) (t : PeriodTag × EIGroup × VotTag) : AggStore :=
  updF s (ie_key t)
    (s (ie_key t) + smulL (1/3) (s (MatKey.eiwork t.1 t.2.1))
      + smulL (1/3) (s (MatKey.einonwork t.1 t.2.1)))

/-- The external-internal pass (source lines 478-495). -/
def add_external_internal (s : AggStore) : AggStore := ie_items.foldl ie_step s

/-- The declared external-zone range, an inclusive integer range such
as `1-12` (tool input `external_zones`). -/
structure ZoneRange : Type where
  lo : Nat
  hi : Nat

/-- Membership of a zone index in the external-zone range. -/
def inRange (z : ZoneRange) (i : Nat) : Bool :=
  decide (z.lo ≤ i) && decide (i ≤ z.hi)

/-- Modelled from the spec: a constrained matrix-calculator assignment
(`{"origins": ..., "destinations": ...}` in `matrix_calc.add`) writes
the expression value only at cells whose origin and destination indices
both lie in the constrained ranges; every other cell keeps its previous
value.  The calculator implementation is outside the repository
snapshot. -/
def maskedAssign (z : ZoneRange) (old new : Mat) : Mat :=
  fun i j => if inRange z i && inRange z j then new i j else old i j

/-- The (period, mode, vot) iteration of the external-external pass, in
source loop order (source lines 503-505). -/
def ee_items : List (PeriodTag × EEMode × VotTag) :=
  periodTags.flatMap (fun p => eeModes.flatMap (fun m => votTags.map (fun v => (p, m, v))))

/-- Assignment mode receiving the external-external demand (source
lines 508-517): SOV goes to the non-transponder SOV total, HOV2 and
HOV3 to their general totals. -/
def ee_dest (m : EEMode) : AssignMode :=
  match m with
  | .SOV => .SOV_NT
  | .HOV2 => .HOV2
  | .HOV3 => .HOV3

/-- Destination key written by one external-external addition. -/
def ee_key (t : PeriodTag × EEMode × VotTag) : MatKey :=
  MatKey.tot t.1 (ee_dest t.2.1) t.2.2

/-- One external-external addition (source lines 506-517): assign to
the destination the destination plus one third of the mode's EETRIPS
matrix, constrained to the external-zone range on both axes. -/
def ee_step (z : ZoneRange) (s : AggStore) (t : PeriodTag × EEMode × VotTag) : AggStore :=
  updF s (ee_key t)
    (maskedAssign z (s (ee_key t))
      (s (ee_key t) + smulL (1/3) (s (MatKey.eetrips t.1 t.2.1))))

/-- The external-external pass (source lines 500-517). -/
def add_external_external (z : ZoneRange) (s : AggStore) : AggStore :=
  ee_items.foldl (ee_step z) s

/-! ### General lemmas about folds of keyed updates -/

theorem foldl_updF_frame {ι α β : Type} [DecidableEq α] (l : List ι) (key : ι → α)
    (g : ι → β → β) (f : α → β) (a : α) (ha : a ∉ l.map key) :
    l.foldl (fun f k => updF f (key k) (g k (f (key k)))) f a = f a := by
  induction l generalizing f with
  | nil => rfl
  | cons hd tl ih =>
    simp only [List.map_cons, List.mem_cons, not_or] at ha
    simp only [List.foldl_cons]
    rw [ih _ ha.2, updF_other _ _ _ _ ha.1]

theorem foldl_updF_lookup {ι α β : Type} [DecidableEq α] (l : List ι) (key : ι → α)
    (g : ι → β → β) (f : α → β) (k0 : ι) (hk : k0 ∈ l)
    (hnd : (l.map key).Nodup) :
    l.foldl (fun f k => updF f (key k) (g k (f (key k)))) f (key k0)
      = g k0 (f (key k0)) := by
  induction l generalizing f with
  | nil => cases hk
  | cons hd tl ih =>
    simp only [List.map_cons, List.nodup_cons] at hnd
    simp only [List.foldl_cons]
    rcases List.mem_cons.1 hk with h | h
    · subst h
      rw [foldl_updF_frame tl key g _ _ hnd.1, updF_same]
    · have hne : key k0 ≠ key hd := by
        intro he
        exact hnd.1 (he ▸ List.mem_map_of_mem key h)
      rw [ih _ h hnd.2, updF_other _ _ _ _ hne]

theorem foldl_accum_lookup {ι α β : Type} [DecidableEq α] [AddCommMonoid β]
    (l : List ι) (key : ι → α) (c : ι → (α → β) → β) (s0 : α → β) (a : α)
    (hro : ∀ t ∈ l, ∀ s s' : α → β,
      (∀ b, b ∉ l.map key → s b = s' b) → c t s = c t s') :
    l.foldl (fun s t => updF s (key t) (s (key t) + c t s)) s0 a
      = s0 a + ((l.filter (fun t => decide (key t = a))).map (fun t => c t s0)).sum := by
  induction l generalizing s0 with
  | nil => simp
  | cons hd tl ih =>
    have hro_tl : ∀ t ∈ tl, ∀ s s' : α → β,
        (∀ b, b ∉ tl.map key → s b = s' b) → c t s = c t s' := by
      intro t ht s s' hag
      refine hro t (List.mem_cons_of_mem _ ht) s s' (fun b hb => hag b ?_)
      intro hmem
      exact hb (List.mem_cons_of_mem _ hmem)
    have hagree : ∀ b, b ∉ (hd :: tl).map key →
        updF s0 (key hd) (s0 (key hd) + c hd s0) b = s0 b := by
      intro b hb
      simp only [List.map_cons, List.mem_cons, not_or] at hb
      exact updF_other _ _ _ _ hb.1
    simp only [List.foldl_cons]
    rw [ih _ hro_tl]
    have hmap : (tl.filter (fun t => decide (key t = a))).map
          (fun t => c t (updF s0 (key hd) (s0 (key hd) + c hd s0)))
        = (tl.filter (fun t => decide (key t = a))).map (fun t => c t s0) := by
      refine List.map_congr_left (fun t ht => ?_)
      exact hro t (List.mem_cons_of_mem _ (List.mem_of_mem_filter ht)) _ _ hagree
    rw [hmap]
    by_cases h : key hd = a
    · subst h
      rw [updF_same]
      simp only [List.filter_cons, decide_eq_true_eq, if_pos rfl]
      simp [add_assoc]
    · have h' : a ≠ key hd := fun he => h he.symm
      rw [updF_other _ _ _ _ h']
      simp only [List.filter_cons]
      rw [if_neg (by simpa using h)]

/-! ### Lookup lemmas for the commercial-vehicle loops -/

theorem cvm_map_nodup : (cvm_keys.map cvm_key_of).Nodup := by decide

theorem cvm_start_lookup (pr : CVMProps) (store : Store) (k : Nat × String × String)
    (hk : k ∈ cvm_keys) :
    cvm_start pr store (cvm_key_of k) = store ((cvm_entry pr k.1 k.2.1 k.2.2).orig) :=
  foldl_updF_lookup cvm_keys cvm_key_of
    (fun k _ => store ((cvm_entry pr k.1 k.2.1 k.2.2).orig)) _ k hk cvm_map_nodup

theorem cvm_loop1_lookup (pr : CVMProps) (tm : String → Mat) (arrays : String → Mat)
    (k : Nat × String × String) (hk : k ∈ cvm_keys) :
    cvm_loop1 pr tm arrays (cvm_key_of k) = cvm_inc pr tm k (arrays (cvm_key_of k)) :=
  foldl_updF_lookup cvm_keys cvm_key_of (cvm_inc pr tm) _ k hk cvm_map_nodup

theorem cvm_loop2_lookup (pr : CVMProps) (tm : String → Mat) (arrays : String → Mat)
    (k : Nat × String × String) (hk : k ∈ cvm_keys) :
    cvm_loop2 pr tm arrays (cvm_key_of k) = cvm_redist pr tm k (arrays (cvm_key_of k)) :=
  foldl_updF_lookup cvm_keys cvm_key_of (cvm_redist pr tm) _ k hk cvm_map_nodup

theorem cvm_loop2_inner_eq (pr : CVMProps) (tm : String → Mat) (index : Nat)
    (period : String) (arr : Mat) :
    cvm_loop2_inner pr tm index period arr
      = arr
        + (if (cvm_entry pr index period "LNT").share ≠ 0 then
            scaleR (cvm_scaled pr tm index period "LNT")
              ((cvm_entry pr index period "LNT").share) else 0)
        + (if (cvm_entry pr index period "MNT").share ≠ 0 then
            scaleR (cvm_scaled pr tm index period "MNT")
              ((cvm_entry pr index period "MNT").share) else 0)
        + (if (cvm_entry pr index period "HNT").share ≠ 0 then
            scaleR (cvm_scaled pr tm index period "HNT")
              ((cvm_entry pr index period "HNT").share) else 0) := by
  have hL : ("L" : String) ++ "NT" = "LNT" := by decide
  have hM : ("M" : String) ++ "NT" = "MNT" := by decide
  have hH : ("H" : String) ++ "NT" = "HNT" := by decide
  simp only [cvm_loop2_inner, cvm_vehs, List.foldl_cons, List.foldl_nil, hL, hM, hH]
  split_ifs <;> abel

/-! ### Concrete inputs used by witnesses and counterexamples -/

/-- Concrete commercial-vehicle properties: unit scale factors, all
shares one half. -/
def prW : CVMProps := ⟨1, fun _ => 1, fun _ => 1, fun _ => 1, 1/2, 1/2, 1/2⟩

/-- Concrete raw table whose every reshaped cell is one. -/
def tmW : String → Mat := fun _ => konst 1

/-- Concrete persisted store holding all-zero matrices. -/
def storeW : Store := fun _ => konst 0

/-! ### Claim theorems -/

/-- C2: contributing matrices to the same destination key via two
separate `set_data` calls stores the same total as a single call with
the elementwise sum of the two matrices; a later contribution is added
to, never replaces, earlier contributions, independently of the order
of the calls. -/
theorem C2_set_data_accumulates (c : Cache) (n : String) (v1 v2 : Mat) :
    set_data (set_data c n v1) n v2 = set_data c n (v1 + v2)
      ∧ set_data (set_data c n v1) n v2 = set_data (set_data c n v2) n v1 := by
  constructor <;>
  · funext m
    by_cases hm : m = n
    · subst hm
      cases hc : c m <;> simp [set_data, hc, updF] <;> abel
    · cases hc : c n <;> simp [set_data, hc, updF, hm]

/-- Helper for claim C9: running the body up to the first exception
accumulates exactly the contributions preceding it, and reports that
exception. -/
theorem runOps_append_failure (pre post : List SetupOp) (msg : String) (c : Cache)
    (hpre : ∀ op ∈ pre, op.isFailure = false) :
    runOps (pre ++ SetupOp.failure msg :: post) c = ((runOps pre c).1, some msg) := by
  induction pre generalizing c with
  | nil => rfl
  | cons hd tl ih =>
    cases hd with
    | set n v =>
      simp only [List.cons_append, runOps]
      exact ih _ (fun op hop => hpre op (List.mem_cons_of_mem _ hop))
    | failure m =>
      have h := hpre _ (List.mem_cons_self _ _)
      simp [SetupOp.isFailure] at h

/-- C9 counterexample: a destination key receives one contribution, the
body fails, and a further contribution for the same key was still
pending, so the key's sum was only partially accumulated; the flush in
the scoped setup nevertheless writes the partial sum for that key (the
persisted value becomes 1, not the untouched 0 the claim requires, nor
the full sum 2), while re-raising the error. -/
theorem C9_counterexample :
    (setupScope [SetupOp.set "AM_SOV_TR_H" (konst 1), SetupOp.failure "boom",
        SetupOp.set "AM_SOV_TR_H" (konst 1)] storeW).1 "AM_SOV_TR_H" 0 0 = 1
      ∧ storeW "AM_SOV_TR_H" 0 0 = 0
      ∧ (setupScope [SetupOp.set "AM_SOV_TR_H" (konst 1), SetupOp.failure "boom",
          SetupOp.set "AM_SOV_TR_H" (konst 1)] storeW).2 = some "boom" :=
  ⟨rfl, rfl, rfl⟩

/-- C9 amended: if a failure is raised during the accumulation phase,
the scoped setup flushes every destination key present in the cache at
the time of the failure with its accumulated-so-far sum — including
keys whose contributions were only partially accumulated — and then
re-raises the original error to the caller. -/
theorem C9_flush_on_error (pre post : List SetupOp) (msg : String) (store : Store)
    (hpre : ∀ op ∈ pre, op.isFailure = false) :
    setupScope (pre ++ SetupOp.failure msg :: post) store
      = (flushCache (runOps pre emptyCache).1 store, some msg) := by
  unfold setupScope
  rw [runOps_append_failure pre post msg emptyCache hpre]

/-- C9 witness: the amended flush-on-error behaviour at a concrete
run. -/
theorem C9_flush_on_error_witness :
    setupScope [SetupOp.set "AM_HOV2_H" (konst 1), SetupOp.failure "err",
        SetupOp.set "AM_HOV2_H" (konst 1)] storeW
      = (flushCache (runOps [SetupOp.set "AM_HOV2_H" (konst 1)] emptyCache).1 storeW,
          some "err") :=
  C9_flush_on_error [SetupOp.set "AM_HOV2_H" (konst 1)]
    [SetupOp.set "AM_HOV2_H" (konst 1)] "err" storeW
    (by intro op hop; obtain rfl := List.mem_singleton.1 hop; rfl)

/-- Helper for claim C8: the column reshape fails with the shape
mismatch error as soon as any listed column's length differs from the
hard-coded zone square. -/
theorem reshapeCols_error (table : String → List ℚ) (l : List String)
    (h : ∃ k ∈ l, (table k).length ≠ 4996 * 4996) :
    reshapeCols table l = Except.error "ShapeMismatchError" := by
  induction l with
  | nil =>
    rcases h with ⟨k, hk, _⟩
    cases hk
  | cons hd tl ih =>
    rcases h with ⟨k, hk, hlen⟩
    rcases List.mem_cons.1 hk with rfl | hk'
    · simp [reshapeCols, reshape4996, hlen]
    · by_cases hhd : (table hd).length = 4996 * 4996
      · simp [reshapeCols, reshape4996, hhd, ih ⟨k, hk', hlen⟩]
      · simp [reshapeCols, reshape4996, hhd]

/-- C8: when any raw commercial-vehicle column's length does not match
the expected zone-count square, the import fails with the shape
mismatch error and the persisted store is returned unmutated: no
destination write happens on the error path. -/
theorem C8_shape_mismatch (pr : CVMProps) (table : String → List ℚ) (store : Store)
    (h : ∃ k ∈ cvm_key_names, (table k).length ≠ 4996 * 4996) :
    import_commercial_vehicle_demand pr table store
      = (store, some "ShapeMismatchError") := by
  unfold import_commercial_vehicle_demand
  rw [reshapeCols_error table _ h]

/-- C8 witness: an empty raw table (every column of length zero) aborts
the import with the shape mismatch error and an untouched store. -/
theorem C8_shape_mismatch_witness :
    import_commercial_vehicle_demand prW (fun _ => []) storeW
      = (storeW, some "ShapeMismatchError") :=
  C8_shape_mismatch prW (fun _ => []) storeW
    ⟨cvm_key "EA" "LNT", by decide, by decide⟩

/-- C4: for every time period and each of the four commercial-vehicle
classes, the first processing loop increments the class's starting
destination array (the persisted matrix named by its `orig` field) by
the raw table for that (period, class), first divided by the global
scale factor, then multiplied by the class's per-period scale factor,
then multiplied by one minus the class's share. -/
theorem C4_cvm_class_scaling (pr : CVMProps) (tm : String → Mat) (store : Store)
    (idx : Nat) (period cls : String) (hk : (idx, period, cls) ∈ cvm_keys) :
    cvm_loop1 pr tm (cvm_start pr store) (cvm_key period cls)
      = store ((cvm_entry pr idx period cls).orig)
        + scaleR (scaleR (divS (tm (cvm_key period cls)) pr.scale_factor)
            ((cvm_entry pr idx period cls).scale))
          (1 - (cvm_entry pr idx period cls).share) := by
  have h1 := cvm_loop1_lookup pr tm (cvm_start pr store) (idx, period, cls) hk
  have h2 := cvm_start_lookup pr store (idx, period, cls) hk
  rw [show cvm_key period cls = cvm_key_of (idx, period, cls) from rfl, h1, h2]
  rfl

/-- C4 witness: the scaling equation at the AM-period light-SOV class
on concrete inputs. -/
theorem C4_cvm_class_scaling_witness :
    ((1 : Nat), "AM", "LNT") ∈ cvm_keys
      ∧ cvm_loop1 prW tmW (cvm_start prW storeW) (cvm_key "AM" "LNT")
          = storeW ((cvm_entry prW 1 "AM" "LNT").orig)
            + scaleR (scaleR (divS (tmW (cvm_key "AM" "LNT")) prW.scale_factor)
                ((cvm_entry prW 1 "AM" "LNT").scale))
              (1 - (cvm_entry prW 1 "AM" "LNT").share) :=
  ⟨by decide, C4_cvm_class_scaling prW tmW storeW 1 "AM" "LNT" (by decide)⟩

/-- C10: the INT (light-truck) mapping entry is built from the
medium-truck per-period scale factor and the medium-truck share; the
light scale factor and light share are used only in the LNT (light-SOV)
entry, the MNT entry uses the medium parameters and the HNT entry the
heavy parameters, so no class uses a light-truck-specific scale
parameter. -/
theorem C10_cvm_entry_params (pr : CVMProps) (index : Nat) (period : String) :
    (cvm_entry pr index period "INT").scale = pr.scale_medium index
      ∧ (cvm_entry pr index period "INT").share = pr.share_medium
      ∧ (cvm_entry pr index period "LNT").scale = pr.scale_light index
      ∧ (cvm_entry pr index period "LNT").share = pr.share_light
      ∧ (cvm_entry pr index period "MNT").scale = pr.scale_medium index
      ∧ (cvm_entry pr index period "MNT").share = pr.share_medium
      ∧ (cvm_entry pr index period "HNT").scale = pr.scale_heavy index
      ∧ (cvm_entry pr index period "HNT").share = pr.share_heavy :=
  ⟨rfl, rfl, rfl, rfl, rfl, rfl, rfl, rfl⟩

/-- C5 amended: for every time period, after the redistribution loop
the light-internal (INT) destination array equals its value after the
first loop plus the light-SOV (LNT), medium-truck (MNT) and heavy-truck
(HNT) columns — not the light-truck (INT) column itself — each scaled
by the global and per-period factors and weighted by the row's own
share, a row contributing only when its share is nonzero. -/
theorem C5_amended_redistribution (pr : CVMProps) (tm : String → Mat) (store : Store)
    (idx : Nat) (period : String) (hk : (idx, period, "INT") ∈ cvm_keys) :
    cvm_loop2 pr tm (cvm_loop1 pr tm (cvm_start pr store)) (cvm_key period "INT")
      = cvm_loop1 pr tm (cvm_start pr store) (cvm_key period "INT")
        + (if (cvm_entry pr idx period "LNT").share ≠ 0 then
            scaleR (cvm_scaled pr tm idx period "LNT")
              ((cvm_entry pr idx period "LNT").share) else 0)
        + (if (cvm_entry pr idx period "MNT").share ≠ 0 then
            scaleR (cvm_scaled pr tm idx period "MNT")
              ((cvm_entry pr idx period "MNT").share) else 0)
        + (if (cvm_entry pr idx period "HNT").share ≠ 0 then
            scaleR (cvm_scaled pr tm idx period "HNT")
              ((cvm_entry pr idx period "HNT").share) else 0) := by
  have h := cvm_loop2_lookup pr tm (cvm_loop1 pr tm (cvm_start pr store))
    (idx, period, "INT") hk
  rw [show cvm_key period "INT" = cvm_key_of (idx, period, "INT") from rfl, h]
  unfold cvm_redist
  rw [if_pos (show cvm_key_of (idx, period, "INT")
    = cvm_key (idx, period, "INT").2.1 "INT" from rfl)]
  exact cvm_loop2_inner_eq pr tm idx period _

/-- C5 witness: the amended redistribution equation at the EA period on
concrete inputs. -/
theorem C5_amended_redistribution_witness :
    ((0 : Nat), "EA", "INT") ∈ cvm_keys
      ∧ cvm_loop2 prW tmW (cvm_loop1 prW tmW (cvm_start prW storeW)) (cvm_key "EA" "INT")
          = cvm_loop1 prW tmW (cvm_start prW storeW) (cvm_key "EA" "INT")
            + (if (cvm_entry prW 0 "EA" "LNT").share ≠ 0 then
                scaleR (cvm_scaled prW tmW 0 "EA" "LNT")
                  ((cvm_entry prW 0 "EA" "LNT").share) else 0)
            + (if (cvm_entry prW 0 "EA" "MNT").share ≠ 0 then
                scaleR (cvm_scaled prW tmW 0 "EA" "MNT")
                  ((cvm_entry prW 0 "EA" "MNT").share) else 0)
            + (if (cvm_entry prW 0 "EA" "HNT").share ≠ 0 then
                scaleR (cvm_scaled prW tmW 0 "EA" "HNT")
                  ((cvm_entry prW 0 "EA" "HNT").share) else 0) :=
  ⟨by decide, C5_amended_redistribution prW tmW storeW 0 "EA" (by decide)⟩

/-- Following the spec's words for claim C5: the light-internal
destination additionally receives the light-SOV (LNT), light-truck
(INT), medium-truck (MNT) and heavy-truck (HNT) non-transponder rows,
each scaled by the global and per-period factors and weighted by the
row's own share, a row contributing only when its share is nonzero. -/
def cvm_INT_spec_value (pr : CVMProps) (tm : String → Mat) (index : Nat)
    (period : String) (base : Mat) : Mat :=
  cvm_classes.foldl
    (fun a cls =>
      if (cvm_entry pr index period cls).share ≠ 0 then
        a + scaleR (cvm_scaled pr tm index period cls)
              ((cvm_entry pr index period cls).share)
      else a)
    base

/-- C5 counterexample: on a table of all ones with unit scale factors
and all shares one half, the redistribution loop leaves the EA-period
light-internal cell at 2 (base one half plus three redistributed
halves), while the spec's four-row formula yields five halves — the
light-truck (INT) row itself is never redistributed by the code. -/
theorem C5_counterexample :
    cvm_loop2 prW tmW (cvm_loop1 prW tmW (cvm_start prW storeW)) (cvm_key "EA" "INT") 0 0
      ≠ cvm_INT_spec_value prW tmW 0 "EA"
          (cvm_loop1 prW tmW (cvm_start prW storeW) (cvm_key "EA" "INT")) 0 0 := by
  have h := cvm_loop2_lookup prW tmW (cvm_loop1 prW tmW (cvm_start prW storeW))
    (0, "EA", "INT") (by decide)
  have h1 := cvm_loop1_lookup prW tmW (cvm_start prW storeW) (0, "EA", "INT") (by decide)
  have h2 := cvm_start_lookup prW storeW (0, "EA", "INT") (by decide)
  rw [show cvm_key "EA" "INT" = cvm_key_of ((0 : Nat), "EA", "INT") from rfl, h,
    h1, h2]
  unfold cvm_redist
  rw [if_pos (show cvm_key_of ((0 : Nat), "EA", "INT")
    = cvm_key ((0 : Nat), "EA", "INT").2.1 "INT" from rfl), cvm_loop2_inner_eq]
  simp only [cvm_INT_spec_value, cvm_classes, List.foldl_cons, List.foldl_nil]
  have eLNT : cvm_entry prW 0 "EA" "LNT"
    = ⟨"EA" ++ "_SOV_TR_H", "EA" ++ "_SOV_TR_H", 1.0, 1, 1/2, "EA"⟩ := rfl
  have eINT : cvm_entry prW 0 "EA" "INT"
    = ⟨"EA" ++ "_TRK_L_VEH", "EA" ++ "_TRK_L", 1.3, 1, 1/2, "EA"⟩ := rfl
  have eMNT : cvm_entry prW 0 "EA" "MNT"
    = ⟨"EA" ++ "_TRK_M_VEH", "EA" ++ "_TRK_M", 1.5, 1, 1/2, "EA"⟩ := rfl
  have eHNT : cvm_entry prW 0 "EA" "HNT"
    = ⟨"EA" ++ "_TRK_H_VEH", "EA" ++ "_TRK_H", 2.5, 1, 1/2, "EA"⟩ := rfl
  norm_num [cvm_inc, cvm_scaled, eLNT, eINT, eMNT, eHNT, scaleR, divS, konst,
    tmW, storeW, Pi.add_apply]
  norm_num [prW]

/-- Concrete taxi/TNC properties with a positive AV-adoption share. -/
def taxiPrPos : TaxiProps := ⟨1/2, 1/4, 1/4, 2, 1⟩

/-- Concrete taxi/TNC properties with zero AV-adoption share. -/
def taxiPrZero : TaxiProps := ⟨1/2, 1/4, 1/4, 2, 0⟩

/-- Concrete taxi/TNC input matrices. -/
def taxiDW : TaxiTNCInputs :=
  ⟨konst 1, konst 1, konst 1, konst 1, konst 1, konst 1, true,
    konst 2, konst 3, konst 4, konst 5, konst 6⟩

/-- C1: the high-VOT pass accumulates, per period, one total per
destination template; inside each total, with a positive AV-adoption
share the empty-AV matrix plus the TNC 0- and 1-occupant matrices go to
the SOV-transponder template, the 2-occupant matrix to HOV2 and the
3-occupant matrix to HOV3, while with a zero AV-adoption share the
0-occupant matrix goes to SOV-transponder, the 1-occupant matrix to
HOV2 and the sum of the 2- and 3-occupant matrices to HOV3. -/
theorem C1_av_tnc_remap (pr : TaxiProps) (d : TaxiTNCInputs) (period : String)
    (cache : Cache) :
    high_vot_pass pr d period cache
        = set_data (set_data (set_data cache
            (fmtName "mf%s_SOV_TR_H" period)
            (taxi_part d (pr.taxi_da_share / pr.taxi_pce)
              + av_demand pr.av_share "mf%s_SOV_TR_H" d))
            (fmtName "mf%s_HOV2_H" period)
            (taxi_part d (pr.taxi_s2_share / pr.taxi_pce)
              + av_demand pr.av_share "mf%s_HOV2_H" d))
            (fmtName "mf%s_HOV3_H" period)
            (taxi_part d (pr.taxi_s3_share / pr.taxi_pce)
              + av_demand pr.av_share "mf%s_HOV3_H" d)
      ∧ (0 < pr.av_share →
          av_demand pr.av_share "mf%s_SOV_TR_H" d = d.empty_av + d.tnc_0 + d.tnc_1
            ∧ av_demand pr.av_share "mf%s_HOV2_H" d = d.tnc_2
            ∧ av_demand pr.av_share "mf%s_HOV3_H" d = d.tnc_3)
      ∧ (pr.av_share = 0 →
          av_demand pr.av_share "mf%s_SOV_TR_H" d = d.tnc_0
            ∧ av_demand pr.av_share "mf%s_HOV2_H" d = d.tnc_1
            ∧ av_demand pr.av_share "mf%s_HOV3_H" d = d.tnc_2 + d.tnc_3) := by
  have hS : ("mf%s_SOV_TR_H".drop 5).dropRight 2 = "SOV_TR" := by decide
  have hH2 : ("mf%s_HOV2_H".drop 5).dropRight 2 = "HOV2" := by decide
  have hH2n : ("mf%s_HOV2_H".drop 5).dropRight 2 ≠ "SOV_TR" := by decide
  have hH3S : ("mf%s_HOV3_H".drop 5).dropRight 2 ≠ "SOV_TR" := by decide
  have hH3H : ("mf%s_HOV3_H".drop 5).dropRight 2 ≠ "HOV2" := by decide
  refine ⟨rfl, fun h => ?_, fun h => ?_⟩
  · unfold av_demand
    rw [if_pos h, if_pos h, if_pos h, if_pos hS, if_neg hH2n, if_pos hH2,
      if_neg hH3S, if_neg hH3H]
    exact ⟨rfl, rfl, rfl⟩
  · have hneg : ¬ (0 : ℚ) < 0 := lt_irrefl 0
    unfold av_demand
    rw [h, if_neg hneg, if_neg hneg, if_neg hneg, if_pos hS, if_neg hH2n,
      if_pos hH2, if_neg hH3S, if_neg hH3H]
    exact ⟨rfl, rfl, rfl⟩

/-- C1 witness: the remap evaluated at a positive and at a zero
AV-adoption share on concrete inputs. -/
theorem C1_av_tnc_remap_witness :
    av_demand taxiPrPos.av_share "mf%s_SOV_TR_H" taxiDW
        = taxiDW.empty_av + taxiDW.tnc_0 + taxiDW.tnc_1
      ∧ av_demand taxiPrZero.av_share "mf%s_HOV3_H" taxiDW
          = taxiDW.tnc_2 + taxiDW.tnc_3 :=
  ⟨((C1_av_tnc_remap taxiPrPos taxiDW "AM" emptyCache).2.1
      (show (0 : ℚ) < 1 by norm_num)).1,
   ((C1_av_tnc_remap taxiPrZero taxiDW "AM" emptyCache).2.2 rfl).2.2⟩

/-- C3: the taxi contribution of the high-VOT pass is, for each of the
three destination templates, the sum of the resident, visitor,
cross-border, airport-SAN, airport-CBX (only when that file exists) and
internal-external taxi matrices multiplied by the template's
mode-specific occupancy share (drive-alone, 2-person and 3-plus-person
share, each per passengers-per-vehicle, as recorded in the mode-shares
table). -/
theorem C3_taxi_contribution (pr : TaxiProps) (d : TaxiTNCInputs) :
    mode_shares pr
        = [("mf%s_SOV_TR_H", pr.taxi_da_share / pr.taxi_pce),
           ("mf%s_HOV2_H", pr.taxi_s2_share / pr.taxi_pce),
           ("mf%s_HOV3_H", pr.taxi_s3_share / pr.taxi_pce)]
      ∧ (∀ share : ℚ,
          taxi_part d share
            = scaleR (d.resident_taxi + d.visitor_taxi + d.cross_border_taxi
                + d.airport_taxi_SAN
                + (if d.cbx_exists then d.airport_taxi_CBX else 0)
                + d.internal_external_taxi) share)
      ∧ (∀ (tmplt : String) (share : ℚ),
          high_vot_total pr.av_share d tmplt share
            = taxi_part d share + av_demand pr.av_share tmplt d) := by
  refine ⟨rfl, fun share => ?_, fun _ _ => rfl⟩
  funext i j
  cases hc : d.cbx_exists <;>
    simp [taxi_part, scaleR, hc, Pi.add_apply, Pi.zero_apply] <;> ring

/-! ### Lemmas for the aggregate-demand passes -/

theorem ie_step_shape :
    ie_step = fun (s : AggStore) t => updF s (ie_key t)
      (s (ie_key t) + (smulL (1/3) (s (MatKey.eiwork t.1 t.2.1))
        + smulL (1/3) (s (MatKey.einonwork t.1 t.2.1)))) := by
  funext s t
  unfold ie_step
  rw [add_assoc]

theorem ie_key_not_eiwork (p : PeriodTag) (g : EIGroup) :
    MatKey.eiwork p g ∉ ie_items.map ie_key := by
  intro hmem
  rcases List.mem_map.1 hmem with ⟨u, -, hu⟩
  simp [ie_key] at hu

theorem ie_key_not_einonwork (p : PeriodTag) (g : EIGroup) :
    MatKey.einonwork p g ∉ ie_items.map ie_key := by
  intro hmem
  rcases List.mem_map.1 hmem with ⟨u, -, hu⟩
  simp [ie_key] at hu

theorem ie_lookup (s : AggStore) (a : MatKey) :
    add_external_internal s a
      = s a + ((ie_items.filter (fun t => decide (ie_key t = a))).map
          (fun t => smulL (1/3) (s (MatKey.eiwork t.1 t.2.1))
            + smulL (1/3) (s (MatKey.einonwork t.1 t.2.1)))).sum := by
  unfold add_external_internal
  rw [ie_step_shape]
  refine foldl_accum_lookup ie_items ie_key
    (fun t s => smulL (1/3) (s (MatKey.eiwork t.1 t.2.1))
      + smulL (1/3) (s (MatKey.einonwork t.1 t.2.1))) s a ?_
  intro t ht s1 s2 hag
  show smulL (1/3) (s1 (MatKey.eiwork t.1 t.2.1))
      + smulL (1/3) (s1 (MatKey.einonwork t.1 t.2.1))
    = smulL (1/3) (s2 (MatKey.eiwork t.1 t.2.1))
      + smulL (1/3) (s2 (MatKey.einonwork t.1 t.2.1))
  rw [hag _ (ie_key_not_eiwork t.1 t.2.1), hag _ (ie_key_not_einonwork t.1 t.2.1)]

theorem ie_filter_sovtr (p : PeriodTag) (v : VotTag) :
    ie_items.filter (fun t => decide (ie_key t = MatKey.tot p AssignMode.SOV_TR v))
      = [(p, EIGroup.SOVGP, v), (p, EIGroup.SOVTOLL, v)] := by
  cases p <;> cases v <;> decide

theorem ie_filter_hov2 (p : PeriodTag) (v : VotTag) :
    ie_items.filter (fun t => decide (ie_key t = MatKey.tot p AssignMode.HOV2 v))
      = [(p, EIGroup.HOV2HOV, v), (p, EIGroup.HOV2TOLL, v)] := by
  cases p <;> cases v <;> decide

theorem ie_filter_hov3 (p : PeriodTag) (v : VotTag) :
    ie_items.filter (fun t => decide (ie_key t = MatKey.tot p AssignMode.HOV3 v))
      = [(p, EIGroup.HOV3HOV, v), (p, EIGroup.HOV3TOLL, v)] := by
  cases p <;> cases v <;> decide

/-- C7: for every period and value-of-time tier, the external-internal
pass adds one third of the EIWORK matrix plus one third of the
EINONWORK matrix of each contributing mode group to the aggregated
total of the corresponding assignment mode: the SOV general and SOV
toll groups both contribute to the SOV-transponder total, the HOV2
general and toll groups to HOV2, and the HOV3 general and toll groups
to HOV3. -/
theorem C7_external_internal (s : AggStore) (p : PeriodTag) (v : VotTag) :
    add_external_internal s (MatKey.tot p AssignMode.SOV_TR v)
        = s (MatKey.tot p AssignMode.SOV_TR v)
          + (smulL (1/3) (s (MatKey.eiwork p EIGroup.SOVGP))
            + smulL (1/3) (s (MatKey.einonwork p EIGroup.SOVGP)))
          + (smulL (1/3) (s (MatKey.eiwork p EIGroup.SOVTOLL))
            + smulL (1/3) (s (MatKey.einonwork p EIGroup.SOVTOLL)))
      ∧ add_external_internal s (MatKey.tot p AssignMode.HOV2 v)
          = s (MatKey.tot p AssignMode.HOV2 v)
            + (smulL (1/3) (s (MatKey.eiwork p EIGroup.HOV2HOV))
              + smulL (1/3) (s (MatKey.einonwork p EIGroup.HOV2HOV)))
            + (smulL (1/3) (s (MatKey.eiwork p EIGroup.HOV2TOLL))
              + smulL (1/3) (s (MatKey.einonwork p EIGroup.HOV2TOLL)))
      ∧ add_external_internal s (MatKey.tot p AssignMode.HOV3 v)
          = s (MatKey.tot p AssignMode.HOV3 v)
            + (smulL (1/3) (s (MatKey.eiwork p EIGroup.HOV3HOV))
              + smulL (1/3) (s (MatKey.einonwork p EIGroup.HOV3HOV)))
            + (smulL (1/3) (s (MatKey.eiwork p EIGroup.HOV3TOLL))
              + smulL (1/3) (s (MatKey.einonwork p EIGroup.HOV3TOLL))) := by
  refine ⟨?_, ?_, ?_⟩
  · rw [ie_lookup, ie_filter_sovtr]
    simp only [List.map_cons, List.map_nil, List.sum_cons, List.sum_nil, add_zero]
    rw [← add_assoc]
  · rw [ie_lookup, ie_filter_hov2]
    simp only [List.map_cons, List.map_nil, List.sum_cons, List.sum_nil, add_zero]
    rw [← add_assoc]
  · rw [ie_lookup, ie_filter_hov3]
    simp only [List.map_cons, List.map_nil, List.sum_cons, List.sum_nil, add_zero]
    rw [← add_assoc]

theorem ee_step_shape (z : ZoneRange) :
    ee_step z = fun (s : AggStore) t => updF s (ee_key t)
      (s (ee_key t) + fun i j =>
        if inRange z i && inRange z j
          then smulL (1/3) (s (MatKey.eetrips t.1 t.2.1)) i j else 0) := by
  funext s t
  unfold ee_step maskedAssign
  have h : (fun i j => if inRange z i && inRange z j
        then (s (ee_key t) + smulL (1/3) (s (MatKey.eetrips t.1 t.2.1))) i j
        else s (ee_key t) i j)
      = s (ee_key t) + fun i j => if inRange z i && inRange z j
          then smulL (1/3) (s (MatKey.eetrips t.1 t.2.1)) i j else 0 := by
    funext i j
    by_cases hb : inRange z i = true ∧ inRange z j = true <;>
      simp [Bool.and_eq_true, hb, Pi.add_apply]
  rw [h]

theorem ee_key_not_eetrips (p : PeriodTag) (m : EEMode) :
    MatKey.eetrips p m ∉ ee_items.map ee_key := by
  intro hmem
  rcases List.mem_map.1 hmem with ⟨u, -, hu⟩
  simp [ee_key] at hu

theorem ee_lookup (z : ZoneRange) (s : AggStore) (a : MatKey) :
    add_external_external z s a
      = s a + ((ee_items.filter (fun t => decide (ee_key t = a))).map
          (fun t => (fun i j => if inRange z i && inRange z j
              then smulL (1/3) (s (MatKey.eetrips t.1 t.2.1)) i j else 0 : Mat))).sum := by
  unfold add_external_external
  rw [ee_step_shape]
  refine foldl_accum_lookup ee_items ee_key
    (fun t s => (fun i j => if inRange z i && inRange z j
      then smulL (1/3) (s (MatKey.eetrips t.1 t.2.1)) i j else 0 : Mat)) s a ?_
  intro t ht s1 s2 hag
  show (fun i j => if inRange z i && inRange z j
      then smulL (1/3) (s1 (MatKey.eetrips t.1 t.2.1)) i j else 0)
    = (fun i j => if inRange z i && inRange z j
      then smulL (1/3) (s2 (MatKey.eetrips t.1 t.2.1)) i j else 0)
  rw [hag _ (ee_key_not_eetrips t.1 t.2.1)]

theorem ee_filter (p : PeriodTag) (m : EEMode) (v : VotTag) :
    ee_items.filter (fun t => decide (ee_key t = MatKey.tot p (ee_dest m) v))
      = [(p, m, v)] := by
  cases p <;> cases m <;> cases v <;> decide

/-- C6: the external-external pass adds one third of each mode's
EETRIPS matrix to the non-transponder SOV total for SOV and to the
general total for HOV2 and HOV3, and only at cells whose origin and
destination indices both lie inside the declared external-zone range;
every cell with either index outside the range keeps its previous
value. -/
theorem C6_external_external (z : ZoneRange) (s : AggStore) (p : PeriodTag)
    (m : EEMode) (v : VotTag) (i j : Nat) :
    ee_dest EEMode.SOV = AssignMode.SOV_NT
      ∧ ee_dest EEMode.HOV2 = AssignMode.HOV2
      ∧ ee_dest EEMode.HOV3 = AssignMode.HOV3
      ∧ (inRange z i = true → inRange z j = true →
          add_external_external z s (MatKey.tot p (ee_dest m) v) i j
            = s (MatKey.tot p (ee_dest m) v) i j
              + (1/3) * s (MatKey.eetrips p m) i j)
      ∧ (¬ (inRange z i = true ∧ inRange z j = true) →
          add_external_external z s (MatKey.tot p (ee_dest m) v) i j
            = s (MatKey.tot p (ee_dest m) v) i j) := by
  have hl := ee_lookup z s (MatKey.tot p (ee_dest m) v)
  rw [ee_filter p m v] at hl
  refine ⟨rfl, rfl, rfl, fun hi hj => ?_, fun hn => ?_⟩
  · rw [hl]
    simp [Pi.add_apply, List.sum_cons, List.sum_nil, hi, hj, smulL]
  · rw [hl]
    simp [Pi.add_apply, List.sum_cons, List.sum_nil, Bool.and_eq_true, hn]

/-- Concrete aggregate store holding all-one matrices. -/
def aggW : AggStore := fun _ => konst 1

/-- C6 witness: with the external-zone range 1-12, the cell (2, 3) of
the SOV non-transponder total receives one third of the EETRIPS value
while the cell (0, 3) is untouched. -/
theorem C6_external_external_witness :
    add_external_external ⟨1, 12⟩ aggW
        (MatKey.tot PeriodTag.AM (ee_dest EEMode.SOV) VotTag.L) 2 3
        = aggW (MatKey.tot PeriodTag.AM (ee_dest EEMode.SOV) VotTag.L) 2 3
          + (1/3) * aggW (MatKey.eetrips PeriodTag.AM EEMode.SOV) 2 3
      ∧ add_external_external ⟨1, 12⟩ aggW
          (MatKey.tot PeriodTag.AM (ee_dest EEMode.SOV) VotTag.L) 0 3
          = aggW (MatKey.tot PeriodTag.AM (ee_dest EEMode.SOV) VotTag.L) 0 3 :=
  ⟨(C6_external_external ⟨1, 12⟩ aggW PeriodTag.AM EEMode.SOV VotTag.L 2 3).2.2.2.1
      (by decide) (by decide),
   (C6_external_external ⟨1, 12⟩ aggW PeriodTag.AM EEMode.SOV VotTag.L 0 3).2.2.2.2
      (by decide)⟩

end RSM
